import Mathlib

/-!
Verification of the si7021_hal sensor driver (CRC-8 engine, measurement
decoders, serial-number decoder, configuration-register codec and the
I2C session layer), shallowly embedded from the Rust sources
`src/lib.rs` and `src/internal/mod.rs`.

Machine integers (`u8`, `u16`, `i32`, `u64`) are modelled as `Nat`/`Int`
with explicit `% 256` truncation exactly where the Rust `u8` type forces
it.  Definitions named `spec_...` are written from the specification's
wording and compared with the source-derived definitions by theorem.
-/

set_option maxRecDepth 1000000

deriving instance DecidableEq for Except

namespace Si7021Hal

/-- Errors of the driver, from `enum Error<E>` in `src/lib.rs` plus the
`InvalidHeaterLevel` variant referenced by `src/internal/mod.rs`.
`ε` is the transport error type `E`. -/
inductive Error (ε : Type) where
  | i2c (e : ε)
  | checksumFailure
  | noPreviousHumidityMeasurement
  | invalidHeaterLevel
deriving DecidableEq

namespace Crc8

/-- One iteration of the inner loop of `Crc8::update`: on `u8` state `c`,
`if c & 0x80 == 0 { c <<= 1 } else { c = (c << 1) ^ 0x31 }`.
The shift truncates to 8 bits, so it is `(c * 2) % 256`. -/
def round (c : Nat) : Nat :=
  if c &&& 0x80 = 0 then (c * 2) % 256 else ((c * 2) % 256) ^^^ 0x31

/-- Processing of a single input byte by `Crc8::update`:
`self.crc ^= *b` followed by eight rounds.  Both operands are `u8`,
hence the `% 256` normalisation. -/
def updateByte (c b : Nat) : Nat :=
  round^[8] ((c % 256) ^^^ (b % 256))

/-- `Crc8::update` from `src/lib.rs` lines 38-52: fold `updateByte` over
the input bytes starting from the current accumulator state; the final
accumulator is both the new state and the returned value. -/
def update (c : Nat) (input : List Nat) : Nat :=
  input.foldl updateByte c

/-- Modelled from the spec wording of the reference algorithm: shift the
accumulator left by one (truncated to 8 bits) and additionally XOR with
0x31 when its high bit was set before the shift. -/
def spec_round (c : Nat) : Nat :=
  if c &&& 0x80 ≠ 0 then ((c * 2) % 256) ^^^ 0x31 else (c * 2) % 256

/-- Modelled from the spec wording: for each input byte in order, XOR the
byte into the 8-bit accumulator, then perform eight `spec_round` steps. -/
def spec_update (acc : Nat) (input : List Nat) : Nat :=
  input.foldl (fun c b => spec_round^[8] ((c % 256) ^^^ (b % 256))) acc

theorem round_eq_spec_round : round = spec_round := by
  funext c
  by_cases h : c &&& 0x80 = 0 <;> simp [round, spec_round, h]

end Crc8

/-- `BigEndian::read_u16` applied to a 2-byte buffer `[b0, b1]` of `u8`s. -/
def readU16BE (b0 b1 : Nat) : Nat :=
  (b0 % 256) * 256 + (b1 % 256)

namespace Temperature

/-- `Temperature::temperature_nocrc` from `src/lib.rs` lines 131-136:
sentinel buffer `[0x00, 0x00]` fails with `NoPreviousHumidityMeasurement`,
otherwise the raw big-endian sample is converted by
`(17572 * raw) / 65536 - 4685` in truncating `i32` arithmetic. -/
def temperature_nocrc {ε : Type} (b0 b1 : Nat) : Except (Error ε) Int :=
  if b0 % 256 = 0 ∧ b1 % 256 = 0 then .error .noPreviousHumidityMeasurement
  else .ok (Int.tdiv (17572 * (readU16BE b0 b1 : Int)) 65536 - 4685)

/-- `Temperature::temperature` from `src/lib.rs` lines 124-130: validate
the checksum of the first two bytes against the third, then take the
no-checksum path. -/
def temperature {ε : Type} (b0 b1 b2 : Nat) : Except (Error ε) Int :=
  if Crc8.update 0 [b0, b1] ≠ b2 % 256 then .error .checksumFailure
  else temperature_nocrc b0 b1

end Temperature

namespace Humidity

/-- `Humidity::humidity` from `src/lib.rs` lines 154-165: validate the
checksum, convert by `(12500 * raw) / 65536 - 600`, then clamp with the
source's `match` (`rh > 10000 => 10000`, `rh < 0 => 0`, else `rh`). -/
def humidity {ε : Type} (b0 b1 b2 : Nat) : Except (Error ε) Int :=
  if Crc8.update 0 [b0, b1] ≠ b2 % 256 then .error .checksumFailure
  else
    let val : Int := Int.tdiv (12500 * (readU16BE b0 b1 : Int)) 65536 - 600
    .ok (if val > 10000 then 10000 else if val < 0 then 0 else val)

/-- Modelled from the spec wording: on checksum success return
`(12500 * raw) / 65536 - 600` clamped into the closed range
`[0, 10000]`; on mismatch fail with `ChecksumFailure`. -/
def spec_humidity (b0 b1 b2 : Nat) : Except (Error Unit) Int :=
  if Crc8.update 0 [b0, b1] = b2 % 256 then
    .ok (max 0 (min 10000 (Int.tdiv (12500 * (readU16BE b0 b1 : Int)) 65536 - 600)))
  else .error .checksumFailure

end Humidity

namespace SerialNumber

/-- Read of byte `i` of the 14-byte buffer `self.buffer` (zero-initialised
in `SerialNumber::new`, entries are `u8`). -/
def byteAt (buffer : List Nat) (i : Nat) : Nat :=
  buffer.getD i 0 % 256

/-- `SerialNumber::serial_number` from `src/lib.rs` lines 72-103: check
group A (bytes 0, 2, 4, 6 against the checksum at byte 7), then group B
(bytes 8, 9, 11, 12 against the checksum at byte 13), then assemble the
64-bit identifier from the eight data bytes by shifts and ors. -/
def serial_number {ε : Type} (buffer : List Nat) : Except (Error ε) Nat :=
  let sna_3 := byteAt buffer 0
  let sna_2 := byteAt buffer 2
  let sna_1 := byteAt buffer 4
  let sna_0 := byteAt buffer 6
  let crc_a := byteAt buffer 7
  if Crc8.update 0 [sna_3, sna_2, sna_1, sna_0] ≠ crc_a then .error .checksumFailure
  else
    let snb_3 := byteAt buffer 8
    let snb_2 := byteAt buffer 9
    let snb_1 := byteAt buffer 11
    let snb_0 := byteAt buffer 12
    let crc_b := byteAt buffer 13
    if Crc8.update 0 [snb_3, snb_2, snb_1, snb_0] ≠ crc_b then .error .checksumFailure
    else .ok (sna_3 <<< 56 ||| sna_2 <<< 48 ||| sna_1 <<< 40 ||| sna_0 <<< 32 |||
              snb_3 <<< 24 ||| snb_2 <<< 16 ||| snb_1 <<< 8 ||| snb_0)

/-- The group-A guard of `SerialNumber::serial_number`: the checksum of
the data bytes at positions 0, 2, 4, 6 equals the byte at position 7. -/
abbrev groupA_ok (buffer : List Nat) : Prop :=
  Crc8.update 0 [byteAt buffer 0, byteAt buffer 2, byteAt buffer 4,
    byteAt buffer 6] = byteAt buffer 7

/-- The group-B guard of `SerialNumber::serial_number`: the checksum of
the data bytes at positions 8, 9, 11, 12 equals the byte at position 13. -/
abbrev groupB_ok (buffer : List Nat) : Prop :=
  Crc8.update 0 [byteAt buffer 8, byteAt buffer 9, byteAt buffer 11,
    byteAt buffer 12] = byteAt buffer 13

end SerialNumber

/-- `MeasurementResolution` from `src/internal/mod.rs` lines 5-11. -/
inductive MeasurementResolution where
  | rh12Temp14
  | rh8Temp12
  | rh10Temp10
  | rh11Temp11
deriving DecidableEq

/-- The discriminant values of `MeasurementResolution` (the Rust
`as u8` casts): `Rh12Temp14 = 0x00`, `Rh8Temp12 = 0x01`,
`Rh10Temp10 = 0x80`, `Rh11Temp11 = 0x81`. -/
def MeasurementResolution.toByte : MeasurementResolution → Nat
  | .rh12Temp14 => 0x00
  | .rh8Temp12 => 0x01
  | .rh10Temp10 => 0x80
  | .rh11Temp11 => 0x81

/-- `UserHeaterRegister` from `src/internal/mod.rs`: a pair of register
bytes, `register[USER_REGISTER1]` and `register[HEATER_REGISTER]`. -/
structure UserHeaterRegister where
  user : Nat
  heater : Nat
deriving DecidableEq

namespace UserHeaterRegister

/-- `UserHeaterRegister::measurement_resolution` (lines 168-176): match on
`register[USER_REGISTER1] & 0x81`, with the wildcard arm mapping the
remaining reachable value `0x81` to `Rh11Temp11`. -/
def measurement_resolution (r : UserHeaterRegister) : MeasurementResolution :=
  match r.user &&& 0x81 with
  | 0x00 => .rh12Temp14
  | 0x01 => .rh8Temp12
  | 0x80 => .rh10Temp10
  | _ => .rh11Temp11

/-- `UserHeaterRegister::set_measurement_resolution` (lines 177-180):
`register[USER_REGISTER1] = (register[USER_REGISTER1] & 0x7e) | value as u8`. -/
def set_measurement_resolution (r : UserHeaterRegister)
    (m : MeasurementResolution) : UserHeaterRegister :=
  { r with user := (r.user &&& 0x7e) ||| m.toByte }

/-- `UserHeaterRegister::heater_level` (lines 188-190):
`register[HEATER_REGISTER] & 0x0f`. -/
def heater_level (r : UserHeaterRegister) : Nat :=
  r.heater &&& 0x0f

/-- `UserHeaterRegister::set_heater_level` (lines 191-197): reject levels
above `0x0f` with `InvalidHeaterLevel` leaving the register untouched,
otherwise store `(register[HEATER_REGISTER] & 0xf0) | heater_level`.
Returns the Rust `Result<(), Error<E>>` paired with the post-state. -/
def set_heater_level {ε : Type} (r : UserHeaterRegister) (level : Nat) :
    Except (Error ε) Unit × UserHeaterRegister :=
  if level > 0x0f then (.error .invalidHeaterLevel, r)
  else (.ok (), { r with heater := (r.heater &&& 0xf0) ||| level })

end UserHeaterRegister

/-- One I2C write-command-then-read transaction as issued by
`Si7021::write_read`: target address, command bytes, response length. -/
structure Transaction where
  addr : Nat
  command : List Nat
  readLen : Nat
deriving DecidableEq

/-- The blocking I2C transport consumed by `Si7021` (`embedded_hal`
`WriteRead`): a state machine whose `writeRead` takes the bus state, the
7-bit address, the command bytes and the response length, and yields the
next state together with either a transport error or the response. -/
structure I2cBus (σ ε : Type) where
  writeRead : σ → Nat → List Nat → Nat → σ × Except ε (List Nat)

/-- The response bytes actually placed in an `n`-byte zero-initialised
buffer: the transport contract fills exactly `n` bytes, so a model
response is truncated or zero-padded to length `n`. -/
def fillBuffer (n : Nat) (response : List Nat) : List Nat :=
  response.take n ++ List.replicate (n - response.length) 0

namespace Si7021

/-- `READ_ELECTRONIC_ID1` from `src/lib.rs` line 29. -/
def READ_ELECTRONIC_ID1 : List Nat := [0xfa, 0x0f]

/-- `READ_ELECTRONIC_ID2` from `src/lib.rs` line 30. -/
def READ_ELECTRONIC_ID2 : List Nat := [0xfc, 0xc9]

/-- `READ_FIRMWARE_REVISION` from `src/lib.rs` line 31. -/
def READ_FIRMWARE_REVISION : List Nat := [0x84, 0xb8]

/-- `Si7021::write_read` from `src/lib.rs` lines 198-203: one transaction
to the fixed address `0x40`, wrapping a transport failure as `Error::I2c`. -/
def write_read {σ ε : Type} (bus : I2cBus σ ε) (s : σ) (command : List Nat)
    (n : Nat) : σ × Except (Error ε) (List Nat) :=
  match bus.writeRead s 0x40 command n with
  | (s1, .error e) => (s1, .error (.i2c e))
  | (s1, .ok r) => (s1, .ok (fillBuffer n r))

/-- `Si7021::serial_number` from `src/lib.rs` lines 230-235: read the
8-byte electronic-id group A, then the 6-byte group B, then decode the
assembled 14-byte buffer; a failing transaction aborts immediately. -/
def serial_number {σ ε : Type} (bus : I2cBus σ ε) (s : σ) :
    σ × Except (Error ε) Nat :=
  match write_read bus s READ_ELECTRONIC_ID1 8 with
  | (s1, .error e) => (s1, .error e)
  | (s1, .ok id1) =>
    match write_read bus s1 READ_ELECTRONIC_ID2 6 with
    | (s2, .error e) => (s2, .error e)
    | (s2, .ok id2) => (s2, SerialNumber.serial_number (id1 ++ id2))

/-- `Si7021::firmware_revision` from `src/lib.rs` lines 237-241: one
1-byte read with `READ_FIRMWARE_REVISION`, returning `buffer[0]` of the
zero-initialised 1-byte buffer verbatim. -/
def firmware_revision {σ ε : Type} (bus : I2cBus σ ε) (s : σ) :
    σ × Except (Error ε) Nat :=
  match write_read bus s READ_FIRMWARE_REVISION 1 with
  | (s1, .error e) => (s1, .error e)
  | (s1, .ok buffer) => (s1, .ok (buffer.getD 0 0))

end Si7021

/-- A transport that answers each command from a fixed oracle and logs
every transaction it is asked to perform, in order. -/
def loggingBus {ε : Type} (oracle : List Nat → Nat → Except ε (List Nat)) :
    I2cBus (List Transaction) ε where
  writeRead := fun log addr command n =>
    (log ++ [⟨addr, command, n⟩], oracle command n)

/-- Claim C1: the checksum update implements exactly the reference
algorithm (per byte: XOR into the 8-bit accumulator, then eight rounds of
shift-left-truncate with an extra XOR of 0x31 when the high bit was set
before the shift); consequently `update([0x84,0x2c,0xf9,0xb1]) = 0xa8`
and `update([0x15,0xff,0xff,0xff]) = 0xcb`. -/
theorem crc8_update_matches_reference :
    (∀ (acc : Nat) (input : List Nat),
        Crc8.update acc input = Crc8.spec_update acc input) ∧
    Crc8.update 0 [0x84, 0x2c, 0xf9, 0xb1] = 0xa8 ∧
    Crc8.update 0 [0x15, 0xff, 0xff, 0xff] = 0xcb := by
  refine ⟨fun acc input => ?_, by decide, by decide⟩
  have h : Crc8.updateByte = fun c b => Crc8.spec_round^[8] ((c % 256) ^^^ (b % 256)) := by
    funext c b
    simp [Crc8.updateByte, Crc8.round_eq_spec_round]
  rw [Crc8.update, Crc8.spec_update, h]

/-- Claim C2: updating with `a` and then with `b` from any starting
accumulator state equals one update with `a ++ b`; in particular feeding
`[0x84, 0x2c, 0xf9, 0xb1]` one byte at a time yields the same final value
`0xa8` as the single-call form. -/
theorem crc8_update_chaining :
    (∀ (acc : Nat) (a b : List Nat),
        Crc8.update (Crc8.update acc a) b = Crc8.update acc (a ++ b)) ∧
    Crc8.update (Crc8.update (Crc8.update (Crc8.update 0 [0x84]) [0x2c])
      [0xf9]) [0xb1] = 0xa8 ∧
    Crc8.update 0 [0x84, 0x2c, 0xf9, 0xb1] = 0xa8 :=
  ⟨fun acc a b => (List.foldl_append Crc8.updateByte acc a b).symm, by decide, by decide⟩

/-- Claim C3: the humidity decode fails with `ChecksumFailure` exactly
when the trailing byte mismatches, otherwise returns
`(12500 * raw) / 65536 - 600` clamped into `[0, 10000]` (equivalence to
the spec-side definition); every returned value lies in `[0, 10000]`;
and `[0xa1, 0xa6, 0x51]` decodes to `7292`. -/
theorem humidity_decode_correct :
    (∀ b0 b1 b2 : Nat,
        Humidity.humidity (ε := Unit) b0 b1 b2 = Humidity.spec_humidity b0 b1 b2) ∧
    (∀ (b0 b1 b2 : Nat) (v : Int),
        Humidity.humidity (ε := Unit) b0 b1 b2 = .ok v → 0 ≤ v ∧ v ≤ 10000) ∧
    Humidity.humidity (ε := Unit) 0xa1 0xa6 0x51 = .ok 7292 := by
  have heq : ∀ b0 b1 b2 : Nat,
      Humidity.humidity (ε := Unit) b0 b1 b2 = Humidity.spec_humidity b0 b1 b2 := by
    intro b0 b1 b2
    simp only [Humidity.humidity, Humidity.spec_humidity]
    by_cases h : Crc8.update 0 [b0, b1] = b2 % 256 <;> simp [h]
    split_ifs <;> omega
  refine ⟨heq, fun b0 b1 b2 v hv => ?_, by decide⟩
  rw [heq] at hv
  simp only [Humidity.spec_humidity] at hv
  by_cases h : Crc8.update 0 [b0, b1] = b2 % 256
  · rw [if_pos h] at hv
    have := (Except.ok.injEq _ _).mp hv.symm
    omega
  · rw [if_neg h] at hv
    exact absurd hv (by simp)

/-- Witness for C3 at the concrete buffer `[0xa1, 0xa6, 0x51]`. -/
theorem humidity_decode_correct_witness :
    Humidity.humidity (ε := Unit) 0xa1 0xa6 0x51 =
      Humidity.spec_humidity 0xa1 0xa6 0x51 ∧
    (0 : Int) ≤ 7292 ∧ (7292 : Int) ≤ 10000 :=
  ⟨humidity_decode_correct.1 0xa1 0xa6 0x51,
   humidity_decode_correct.2.1 0xa1 0xa6 0x51 7292 (by decide)⟩

/-- Claim C4: the checksum-validating temperature decode fails with
`ChecksumFailure` on trailing-byte mismatch; on match it takes the
no-checksum path, so a raw `0x0000` reading with a matching checksum
fails with `NoPreviousHumidityMeasurement` and any other reading yields
`(17572 * raw) / 65536 - 4685` unclamped; `[0x66, 0x4c, 0x4f]` decodes
to `2336`. -/
theorem temperature_decode_correct :
    (∀ b0 b1 b2 : Nat, Crc8.update 0 [b0, b1] ≠ b2 % 256 →
        Temperature.temperature (ε := Unit) b0 b1 b2 = .error .checksumFailure) ∧
    (∀ b0 b1 b2 : Nat, Crc8.update 0 [b0, b1] = b2 % 256 →
        Temperature.temperature (ε := Unit) b0 b1 b2 =
          Temperature.temperature_nocrc b0 b1) ∧
    (∀ b2 : Nat, Crc8.update 0 [0x00, 0x00] = b2 % 256 →
        Temperature.temperature (ε := Unit) 0x00 0x00 b2 =
          .error .noPreviousHumidityMeasurement) ∧
    (∀ b0 b1 b2 : Nat, Crc8.update 0 [b0, b1] = b2 % 256 →
        ¬(b0 % 256 = 0 ∧ b1 % 256 = 0) →
        Temperature.temperature (ε := Unit) b0 b1 b2 =
          .ok (Int.tdiv (17572 * (readU16BE b0 b1 : Int)) 65536 - 4685)) ∧
    Temperature.temperature (ε := Unit) 0x66 0x4c 0x4f = .ok 2336 := by
  refine ⟨fun b0 b1 b2 h => ?_, fun b0 b1 b2 h => ?_, fun b2 h => ?_,
    fun b0 b1 b2 h hs => ?_, by decide⟩
  · simp [Temperature.temperature, h]
  · simp [Temperature.temperature, h]
  · simp [Temperature.temperature, Temperature.temperature_nocrc, h]
  · simp [Temperature.temperature, Temperature.temperature_nocrc, h, hs]

/-- Witness for C4: mismatching, sentinel and valid concrete buffers. -/
theorem temperature_decode_correct_witness :
    Temperature.temperature (ε := Unit) 0x66 0x4c 0x00 = .error .checksumFailure ∧
    Temperature.temperature (ε := Unit) 0x66 0x4c 0x4f =
      Temperature.temperature_nocrc 0x66 0x4c ∧
    Temperature.temperature (ε := Unit) 0x00 0x00 0x00 =
      .error .noPreviousHumidityMeasurement ∧
    Temperature.temperature (ε := Unit) 0x66 0x4c 0x4f =
      .ok (Int.tdiv (17572 * (readU16BE 0x66 0x4c : Int)) 65536 - 4685) :=
  ⟨temperature_decode_correct.1 0x66 0x4c 0x00 (by decide),
   temperature_decode_correct.2.1 0x66 0x4c 0x4f (by decide),
   temperature_decode_correct.2.2.1 0x00 (by decide),
   temperature_decode_correct.2.2.2.1 0x66 0x4c 0x4f (by decide) (by decide)⟩

/-- Claim C5: the no-checksum temperature decode fails with
`NoPreviousHumidityMeasurement` on the sentinel `[0x00, 0x00]` and
otherwise returns `(17572 * raw) / 65536 - 4685`; `[0x66, 0x44]` decodes
to `2334`. -/
theorem temperature_nocrc_correct :
    Temperature.temperature_nocrc (ε := Unit) 0x00 0x00 =
      .error .noPreviousHumidityMeasurement ∧
    (∀ b0 b1 : Nat, b0 < 256 → b1 < 256 → ¬(b0 = 0 ∧ b1 = 0) →
        Temperature.temperature_nocrc (ε := Unit) b0 b1 =
          .ok (Int.tdiv (17572 * (readU16BE b0 b1 : Int)) 65536 - 4685)) ∧
    Temperature.temperature_nocrc (ε := Unit) 0x66 0x44 = .ok 2334 := by
  refine ⟨by decide, fun b0 b1 hb0 hb1 hs => ?_, by decide⟩
  simp [Temperature.temperature_nocrc, Nat.mod_eq_of_lt hb0,
    Nat.mod_eq_of_lt hb1, hs]

/-- Witness for C5 at the concrete prior-measurement buffer `[0x66, 0x44]`. -/
theorem temperature_nocrc_correct_witness :
    Temperature.temperature_nocrc (ε := Unit) 0x66 0x44 =
      .ok (Int.tdiv (17572 * (readU16BE 0x66 0x44 : Int)) 65536 - 4685) :=
  temperature_nocrc_correct.2.1 0x66 0x44 (by decide) (by decide) (by decide)

/-- Claim C6: the serial-number decode succeeds exactly when both group
checksums pass, failing with `ChecksumFailure` otherwise; on success the
result is the bytes at positions 0, 2, 4, 6 as the most-significant 32
bits and the bytes at positions 8, 9, 11, 12 as the least-significant 32
bits; the bytes at positions 1, 3, 5 and 10 never affect the result; and
the concrete two-group buffer decodes to `0x842cf9b115ffffff`. -/
theorem serial_number_decode_correct :
    (∀ buffer : List Nat,
        (∃ id, SerialNumber.serial_number (ε := Unit) buffer = .ok id) ↔
          (SerialNumber.groupA_ok buffer ∧ SerialNumber.groupB_ok buffer)) ∧
    (∀ buffer : List Nat,
        ¬(SerialNumber.groupA_ok buffer ∧ SerialNumber.groupB_ok buffer) →
        SerialNumber.serial_number (ε := Unit) buffer = .error .checksumFailure) ∧
    (∀ buffer : List Nat,
        SerialNumber.groupA_ok buffer → SerialNumber.groupB_ok buffer →
        SerialNumber.serial_number (ε := Unit) buffer =
          .ok (SerialNumber.byteAt buffer 0 <<< 56 |||
               SerialNumber.byteAt buffer 2 <<< 48 |||
               SerialNumber.byteAt buffer 4 <<< 40 |||
               SerialNumber.byteAt buffer 6 <<< 32 |||
               SerialNumber.byteAt buffer 8 <<< 24 |||
               SerialNumber.byteAt buffer 9 <<< 16 |||
               SerialNumber.byteAt buffer 11 <<< 8 |||
               SerialNumber.byteAt buffer 12)) ∧
    (∀ a b : List Nat,
        SerialNumber.byteAt a 0 = SerialNumber.byteAt b 0 →
        SerialNumber.byteAt a 2 = SerialNumber.byteAt b 2 →
        SerialNumber.byteAt a 4 = SerialNumber.byteAt b 4 →
        SerialNumber.byteAt a 6 = SerialNumber.byteAt b 6 →
        SerialNumber.byteAt a 7 = SerialNumber.byteAt b 7 →
        SerialNumber.byteAt a 8 = SerialNumber.byteAt b 8 →
        SerialNumber.byteAt a 9 = SerialNumber.byteAt b 9 →
        SerialNumber.byteAt a 11 = SerialNumber.byteAt b 11 →
        SerialNumber.byteAt a 12 = SerialNumber.byteAt b 12 →
        SerialNumber.byteAt a 13 = SerialNumber.byteAt b 13 →
        SerialNumber.serial_number (ε := Unit) a =
          SerialNumber.serial_number (ε := Unit) b) ∧
    SerialNumber.serial_number (ε := Unit)
        [0x84, 0xbe, 0x2c, 0x5b, 0xf9, 0x9e, 0xb1, 0xa8,
         0x15, 0xff, 0xb5, 0xff, 0xff, 0xcb] = .ok 0x842cf9b115ffffff := by
  have hok : ∀ buffer : List Nat,
      SerialNumber.groupA_ok buffer → SerialNumber.groupB_ok buffer →
      SerialNumber.serial_number (ε := Unit) buffer =
        .ok (SerialNumber.byteAt buffer 0 <<< 56 |||
             SerialNumber.byteAt buffer 2 <<< 48 |||
             SerialNumber.byteAt buffer 4 <<< 40 |||
             SerialNumber.byteAt buffer 6 <<< 32 |||
             SerialNumber.byteAt buffer 8 <<< 24 |||
             SerialNumber.byteAt buffer 9 <<< 16 |||
             SerialNumber.byteAt buffer 11 <<< 8 |||
             SerialNumber.byteAt buffer 12) := by
    intro buffer hA hB
    simp [SerialNumber.serial_number, hA, hB]
  have herr : ∀ buffer : List Nat,
      ¬(SerialNumber.groupA_ok buffer ∧ SerialNumber.groupB_ok buffer) →
      SerialNumber.serial_number (ε := Unit) buffer = .error .checksumFailure := by
    intro buffer h
    by_cases hA : SerialNumber.groupA_ok buffer
    · have hB : ¬SerialNumber.groupB_ok buffer := fun hB => h ⟨hA, hB⟩
      simp [SerialNumber.serial_number, hA, hB]
    · simp [SerialNumber.serial_number, hA]
  refine ⟨fun buffer => ⟨fun ⟨id, hid⟩ => ?_, fun ⟨hA, hB⟩ => ⟨_, hok buffer hA hB⟩⟩,
    herr, hok, fun a b h0 h2 h4 h6 h7 h8 h9 h11 h12 h13 => ?_, by decide⟩
  · by_contra hcontra
    rw [herr buffer hcontra] at hid
    exact absurd hid (by simp)
  · simp only [SerialNumber.serial_number]
    rw [h0, h2, h4, h6, h7, h8, h9, h11, h12, h13]

/-- Witness for C6: a corrupted buffer fails, the concrete good buffer
decodes, and junk at the ignored positions 1, 3, 5 and 10 leaves the
result unchanged. -/
theorem serial_number_decode_correct_witness :
    SerialNumber.serial_number (ε := Unit)
        [0x84, 0xbe, 0x2c, 0x5b, 0xf9, 0x9e, 0xb1, 0x00,
         0x15, 0xff, 0xb5, 0xff, 0xff, 0xcb] = .error .checksumFailure ∧
    SerialNumber.serial_number (ε := Unit)
        [0x84, 0xbe, 0x2c, 0x5b, 0xf9, 0x9e, 0xb1, 0xa8,
         0x15, 0xff, 0xb5, 0xff, 0xff, 0xcb] =
      SerialNumber.serial_number (ε := Unit)
        [0x84, 0x00, 0x2c, 0x11, 0xf9, 0x22, 0xb1, 0xa8,
         0x15, 0xff, 0x33, 0xff, 0xff, 0xcb] ∧
    (∃ id, SerialNumber.serial_number (ε := Unit)
        [0x84, 0xbe, 0x2c, 0x5b, 0xf9, 0x9e, 0xb1, 0xa8,
         0x15, 0xff, 0xb5, 0xff, 0xff, 0xcb] = .ok id) :=
  ⟨serial_number_decode_correct.2.1 _ (by decide),
   serial_number_decode_correct.2.2.2.1 _ _ (by decide) (by decide) (by decide)
     (by decide) (by decide) (by decide) (by decide) (by decide) (by decide)
     (by decide),
   (serial_number_decode_correct.1 _).mpr ⟨by decide, by decide⟩⟩

theorem mask_resolution_aux : ∀ u < 256, ∀ p ∈ [0x00, 0x01, 0x80, 0x81],
    ((u &&& 0x7e) ||| p) &&& 0x81 = p := by decide

theorem testBit_low_aux : ∀ u < 256, ∀ p ∈ [0x00, 0x01, 0x80, 0x81],
    ∀ i < 8, i ≠ 0 → i ≠ 7 →
      ((u &&& 0x7e) ||| p).testBit i = u.testBit i := by decide

theorem heater_roundtrip_aux : ∀ h < 256, ∀ l < 16,
    ((h &&& 0xf0) ||| l) &&& 0x0f = l := by decide

/-- Claim C7: after `set_measurement_resolution`, reading the resolution
back returns exactly the value that was set; every bit of the resulting
user register outside positions 0 and 7 equals the corresponding bit of
the input register; the new register equals
`(reg & 0x7e) | pattern` with the patterns `0x00`, `0x01`, `0x80`,
`0x81` for the four resolutions. -/
theorem user_register_resolution_roundtrip :
    ∀ u h : Nat, u < 256 → ∀ m : MeasurementResolution,
      UserHeaterRegister.measurement_resolution
        (UserHeaterRegister.set_measurement_resolution ⟨u, h⟩ m) = m ∧
      (∀ i : Nat, i ≠ 0 → i ≠ 7 →
        (UserHeaterRegister.set_measurement_resolution ⟨u, h⟩ m).user.testBit i =
          u.testBit i) ∧
      (UserHeaterRegister.set_measurement_resolution ⟨u, h⟩ m).user =
        (u &&& 0x7e) ||| m.toByte ∧
      (MeasurementResolution.toByte .rh12Temp14 = 0x00 ∧
       MeasurementResolution.toByte .rh8Temp12 = 0x01 ∧
       MeasurementResolution.toByte .rh10Temp10 = 0x80 ∧
       MeasurementResolution.toByte .rh11Temp11 = 0x81) := by
  intro u h hu m
  have hpmem : MeasurementResolution.toByte m ∈ [0x00, 0x01, 0x80, 0x81] := by
    cases m <;> decide
  refine ⟨?_, fun i h0 h7 => ?_, rfl, by decide⟩
  · have hmask := mask_resolution_aux u hu (MeasurementResolution.toByte m) hpmem
    simp only [UserHeaterRegister.set_measurement_resolution,
      UserHeaterRegister.measurement_resolution, hmask]
    cases m <;> rfl
  · show ((u &&& 0x7e) ||| MeasurementResolution.toByte m).testBit i = u.testBit i
    by_cases h8 : i < 8
    · exact testBit_low_aux u hu (MeasurementResolution.toByte m) hpmem i h8 h0 h7
    · have hle : (256 : Nat) ≤ 2 ^ i := by
        calc (256 : Nat) = 2 ^ 8 := by norm_num
          _ ≤ 2 ^ i := Nat.pow_le_pow_right (by norm_num) (by omega)
      have hor : (u &&& 0x7e) ||| MeasurementResolution.toByte m < 256 := by
        have h1 : u &&& 0x7e < 2 ^ 8 :=
          lt_of_le_of_lt Nat.and_le_right (by norm_num)
        have h2 : MeasurementResolution.toByte m < 2 ^ 8 := by
          cases m <;> decide
        have := Nat.or_lt_two_pow h1 h2
        simpa using this
      rw [Nat.testBit_lt_two_pow (lt_of_lt_of_le hor hle),
        Nat.testBit_lt_two_pow (lt_of_lt_of_le hu hle)]

/-- Witness for C7 at the register byte `0xd6` and `Rh8Temp12`. -/
theorem user_register_resolution_roundtrip_witness :
    UserHeaterRegister.measurement_resolution
      (UserHeaterRegister.set_measurement_resolution ⟨0xd6, 0x00⟩ .rh8Temp12) =
        .rh8Temp12 ∧
    (UserHeaterRegister.set_measurement_resolution
        ⟨0xd6, 0x00⟩ .rh8Temp12).user.testBit 6 = (0xd6 : Nat).testBit 6 :=
  ⟨(user_register_resolution_roundtrip 0xd6 0x00 (by decide) .rh8Temp12).1,
   (user_register_resolution_roundtrip 0xd6 0x00 (by decide) .rh8Temp12).2.1 6
     (by decide) (by decide)⟩

/-- Claim C8: `set_heater_level` fails with `InvalidHeaterLevel` exactly
when the requested level exceeds `0x0f`, and then leaves the register
pair unchanged; for levels up to `0x0f` the heater register becomes
`(reg & 0xf0) | level`, preserving the high nibble, and `heater_level`
afterwards reads back exactly the level that was set. -/
theorem heater_level_codec_correct :
    ∀ u h level : Nat,
      ((UserHeaterRegister.set_heater_level (ε := Unit) ⟨u, h⟩ level).1 =
          .error .invalidHeaterLevel ↔ 0x0f < level) ∧
      (0x0f < level →
        (UserHeaterRegister.set_heater_level (ε := Unit) ⟨u, h⟩ level).2 = ⟨u, h⟩) ∧
      (level ≤ 0x0f → h < 256 →
        (UserHeaterRegister.set_heater_level (ε := Unit) ⟨u, h⟩ level).1 = .ok () ∧
        (UserHeaterRegister.set_heater_level (ε := Unit) ⟨u, h⟩ level).2 =
          ⟨u, (h &&& 0xf0) ||| level⟩ ∧
        UserHeaterRegister.heater_level
          (UserHeaterRegister.set_heater_level (ε := Unit) ⟨u, h⟩ level).2 =
            level) := by
  intro u h level
  by_cases hl : 0x0f < level
  · exact ⟨by simp [UserHeaterRegister.set_heater_level, hl],
      fun _ => by simp [UserHeaterRegister.set_heater_level, hl],
      fun hle _ => absurd hl (by omega)⟩
  · refine ⟨by simp [UserHeaterRegister.set_heater_level, hl],
      fun hgt => absurd hgt hl, fun hle hh => ?_⟩
    have h2 : (UserHeaterRegister.set_heater_level (ε := Unit) ⟨u, h⟩ level).2 =
        ⟨u, (h &&& 0xf0) ||| level⟩ := by
      simp [UserHeaterRegister.set_heater_level, hl]
    refine ⟨by simp [UserHeaterRegister.set_heater_level, hl], h2, ?_⟩
    rw [h2]
    show ((h &&& 0xf0) ||| level) &&& 0x0f = level
    exact heater_roundtrip_aux h hh level (by omega)

/-- Witness for C8: level `0x10` is rejected leaving the registers
untouched; level `0x05` is stored and read back. -/
theorem heater_level_codec_correct_witness :
    (UserHeaterRegister.set_heater_level (ε := Unit) ⟨0x00, 0xab⟩ 0x10).2 =
      ⟨0x00, 0xab⟩ ∧
    UserHeaterRegister.heater_level
      (UserHeaterRegister.set_heater_level (ε := Unit) ⟨0x00, 0xab⟩ 0x05).2 =
        0x05 :=
  ⟨(heater_level_codec_correct 0x00 0xab 0x10).2.1 (by decide),
   ((heater_level_codec_correct 0x00 0xab 0x05).2.2 (by decide) (by decide)).2.2⟩

/-- A transport model answering the electronic-id and firmware commands
with the test vectors of the repository's test suite. -/
def testOracle : List Nat → Nat → Except Unit (List Nat) :=
  fun command _ =>
    if command = [0xfa, 0x0f] then
      .ok [0x84, 0xbe, 0x2c, 0x5b, 0xf9, 0x9e, 0xb1, 0xa8]
    else if command = [0xfc, 0xc9] then
      .ok [0x15, 0xff, 0xb5, 0xff, 0xff, 0xcb]
    else if command = [0x84, 0xb8] then .ok [0x20]
    else .error ()

/-- A transport model whose every transaction fails. -/
def failOracle : List Nat → Nat → Except Unit (List Nat) :=
  fun _ _ => .error ()

/-- Claim C9: `serial_number` issues exactly two
write-command-then-read transactions to address `0x40` — first
`[0xFA, 0x0F]` reading 8 bytes, then `[0xFC, 0xC9]` reading 6 bytes —
and only then decodes; if the first transaction fails, the wrapped
transport error is returned immediately, the second transaction is never
issued, and no retry is performed. -/
theorem serial_number_transactions {ε : Type}
    (oracle : List Nat → Nat → Except ε (List Nat)) :
    (∀ e : ε, oracle [0xfa, 0x0f] 8 = .error e →
        Si7021.serial_number (loggingBus oracle) [] =
          ([⟨0x40, [0xfa, 0x0f], 8⟩], .error (.i2c e))) ∧
    (∀ r1 : List Nat, oracle [0xfa, 0x0f] 8 = .ok r1 →
        (Si7021.serial_number (loggingBus oracle) []).1 =
          [⟨0x40, [0xfa, 0x0f], 8⟩, ⟨0x40, [0xfc, 0xc9], 6⟩] ∧
        (∀ e : ε, oracle [0xfc, 0xc9] 6 = .error e →
          (Si7021.serial_number (loggingBus oracle) []).2 = .error (.i2c e)) ∧
        (∀ r2 : List Nat, oracle [0xfc, 0xc9] 6 = .ok r2 →
          (Si7021.serial_number (loggingBus oracle) []).2 =
            SerialNumber.serial_number (fillBuffer 8 r1 ++ fillBuffer 6 r2))) := by
  constructor
  · intro e he
    simp [Si7021.serial_number, Si7021.write_read, loggingBus,
      Si7021.READ_ELECTRONIC_ID1, Si7021.READ_ELECTRONIC_ID2, he]
  · intro r1 h1
    refine ⟨?_, fun e he => ?_, fun r2 h2 => ?_⟩ <;>
      simp [Si7021.serial_number, Si7021.write_read, loggingBus,
        Si7021.READ_ELECTRONIC_ID1, Si7021.READ_ELECTRONIC_ID2, h1] <;>
      cases h : oracle [0xfc, 0xc9] 6 <;>
      simp_all

/-- Witness for C9: all transactions fail on the failing transport; the
test-vector transport yields both transactions in order. -/
theorem serial_number_transactions_witness :
    Si7021.serial_number (loggingBus failOracle) [] =
      ([⟨0x40, [0xfa, 0x0f], 8⟩], .error (.i2c ())) ∧
    (Si7021.serial_number (loggingBus testOracle) []).1 =
      [⟨0x40, [0xfa, 0x0f], 8⟩, ⟨0x40, [0xfc, 0xc9], 6⟩] :=
  ⟨(serial_number_transactions failOracle).1 () rfl,
   ((serial_number_transactions testOracle).2
     [0x84, 0xbe, 0x2c, 0x5b, 0xf9, 0x9e, 0xb1, 0xa8] (by decide)).1⟩

/-- Claim C10: `firmware_revision` issues one transaction with command
`[0x84, 0xB8]` to address `0x40` reading one byte and returns that byte
verbatim with no checksum validation and no range check; the only
possible error is a wrapped transport error. -/
theorem firmware_revision_transaction {ε : Type}
    (oracle : List Nat → Nat → Except ε (List Nat)) :
    (∀ e : ε, oracle [0x84, 0xb8] 1 = .error e →
        Si7021.firmware_revision (loggingBus oracle) [] =
          ([⟨0x40, [0x84, 0xb8], 1⟩], .error (.i2c e))) ∧
    (∀ b : Nat, oracle [0x84, 0xb8] 1 = .ok [b] →
        Si7021.firmware_revision (loggingBus oracle) [] =
          ([⟨0x40, [0x84, 0xb8], 1⟩], .ok b)) := by
  constructor
  · intro e he
    simp [Si7021.firmware_revision, Si7021.write_read, loggingBus,
      Si7021.READ_FIRMWARE_REVISION, he]
  · intro b hb
    simp [Si7021.firmware_revision, Si7021.write_read, loggingBus,
      Si7021.READ_FIRMWARE_REVISION, hb, fillBuffer]

/-- Witness for C10 with the test transport answering `0x20`. -/
theorem firmware_revision_transaction_witness :
    Si7021.firmware_revision (loggingBus testOracle) [] =
      ([⟨0x40, [0x84, 0xb8], 1⟩], .ok 0x20) :=
  (firmware_revision_transaction testOracle).2 0x20 (by decide)

end Si7021Hal
